import Mathlib

/-!
Verification of the jobspy_tool repository: two thin wrappers
(src/jobspy_demo.py : jobspy_scraper, and
src/jobspy_tool.py : JobSpyScraperTool.scrape_job_listings) around the
external scrape_jobs library call.

The embedding models:
  * the parameter dictionary forwarded to the external call as an
    association list of string keys and PVal values, with Python dict
    insertion-order and update semantics;
  * the external tabular result (a pandas DataFrame produced by the
    external scrape engine) as a structure of named columns and rows,
    where a row is an association list from column name to cell text;
  * the returned JSON-compatible dictionary as an association list of
    string keys and JVal values;
  * the external scrape call as an oracle of type
    params to Except String DataFrame: Except.error e models the call
    raising an exception whose str() is e.
-/

/-- A value stored in the parameter dictionary forwarded to scrape_jobs. -/
inductive PVal where
  | str (s : String)
  | int (n : Int)
  | bool (b : Bool)
  | strList (l : List String)
deriving DecidableEq, Repr

/-- A JSON-compatible value, as appears in the returned result dictionary. -/
inductive JVal where
  | str (s : String)
  | nat (n : Nat)
  | bool (b : Bool)
  | null
  | list (l : List JVal)
  | obj (o : List (String × JVal))

/-- The parameter dictionary: keys in Python dict insertion order. -/
abbrev Params := List (String × PVal)

/-- The returned result dictionary. -/
abbrev Result := List (String × JVal)

/-- Python dict assignment d[k] = v: replace the value in place if the key
is present (insertion order kept), otherwise append the new key at the end. -/
def setKey (ps : Params) (k : String) (v : PVal) : Params :=
  if ps.any (fun p => p.1 = k) then
    ps.map (fun p => if p.1 = k then (k, v) else p)
  else
    ps ++ [(k, v)]

/-- Python dict.update: assign every pair of kw into ps, left to right. -/
def dictUpdate (ps : Params) (kw : Params) : Params :=
  kw.foldl (fun acc p => setKey acc p.1 p.2) ps

/-- The tabular result set returned by the external scrape engine
(a pandas DataFrame): named columns, and rows mapping column name to
cell text. -/
structure DataFrame where
  columns : List String
  rows : List (List (String × String))
deriving DecidableEq, Repr

/-- Cell of a row at a named column (missing cells read as empty text). -/
def cellAt (r : List (String × String)) (c : String) : String :=
  (r.lookup c).getD ""

/-- The column series df[c]: the cells of column c, in row order. -/
def DataFrame.col (df : DataFrame) (c : String) : List String :=
  df.rows.map (fun r => cellAt r c)

/-- DataFrame.empty for a scrape result: true when there are no rows
(the spec treats the external emptiness check as: the call returned zero
rows). -/
def DataFrame.isEmpty (df : DataFrame) : Bool :=
  df.rows.isEmpty

/-- len(df): the number of rows. -/
def DataFrame.len (df : DataFrame) : Nat :=
  df.rows.length

/-- Series.nunique: number of distinct values in a column. -/
def nunique (l : List String) : Nat :=
  l.dedup.length

/-- Comparison used by value_counts: descending by occurrence count. -/
def descCount (a b : String × Nat) : Prop :=
  b.2 ≤ a.2

instance : DecidableRel descCount :=
  fun a b => (inferInstance : Decidable (b.2 ≤ a.2))

instance : IsTotal (String × Nat) descCount :=
  ⟨fun a b => Nat.le_total b.2 a.2⟩

instance : IsTrans (String × Nat) descCount :=
  ⟨fun _ _ _ h1 h2 => Nat.le_trans h2 h1⟩

/-- Series.value_counts: each distinct value with its occurrence count,
sorted by count descending (ties resolved by the sort, not normative). -/
def value_counts (l : List String) : List (String × Nat) :=
  List.insertionSort descCount (l.dedup.map (fun v => (v, l.count v)))

/-- df.to_dict(orient="records"): one mapping per row, fields following
the column order of the result set. -/
def DataFrame.toRecords (df : DataFrame) : List JVal :=
  df.rows.map (fun r => JVal.obj (df.columns.map (fun c => (c, JVal.str (cellAt r c)))))

/-- The named arguments of both call surfaces, with the source defaults.
Option models the Python None / unset sentinel. -/
structure Args where
  search_term : String := "Software Engineer"
  location : String := "San Francisco, CA"
  site_name : Option (List String) := none
  country_indeed : String := "USA"
  results_wanted : Int := 20
  hours_old : Int := 72
  distance : Int := 50
  offset : Int := 0
  job_type : String := ""
  is_remote : Option Bool := none
  easy_apply : Option Bool := none
  google_search_term : Option String := none
  linkedin_fetch_description : Bool := false
  enforce_annual_salary : Bool := false
  verbose : Int := 2
deriving DecidableEq, Repr

/-- Python: google_search_term or search_term (None and the empty string
are falsy). -/
def pyOrStr (v : Option String) (d : String) : String :=
  match v with
  | none => d
  | some s => if s = "" then d else s

/-- Default site list filled in when site_name is None. -/
def defaultSites : List String :=
  ["indeed", "linkedin", "zip_recruiter", "google"]

/-- site_name after default filling. -/
def fillSiteName (a : Args) : List String :=
  a.site_name.getD defaultSites

/-- The params dictionary literal built by both surfaces, in source
insertion order. -/
def baseParams (a : Args) : Params :=
  [("site_name", PVal.strList (fillSiteName a)),
   ("search_term", PVal.str a.search_term),
   ("google_search_term", PVal.str (pyOrStr a.google_search_term a.search_term)),
   ("location", PVal.str a.location),
   ("country_indeed", PVal.str a.country_indeed),
   ("results_wanted", PVal.int a.results_wanted),
   ("hours_old", PVal.int a.hours_old),
   ("distance", PVal.int a.distance),
   ("offset", PVal.int a.offset),
   ("verbose", PVal.int a.verbose),
   ("enforce_annual_salary", PVal.bool a.enforce_annual_salary),
   ("linkedin_fetch_description", PVal.bool a.linkedin_fetch_description)]

/-- Optional filter: if job_type (truthy, so non-empty) then
params["job_type"] = job_type. -/
def applyJobType (a : Args) (ps : Params) : Params :=
  if a.job_type ≠ "" then setKey ps "job_type" (PVal.str a.job_type) else ps

/-- Optional filter: if is_remote is not None then
params["is_remote"] = is_remote. -/
def applyIsRemote (a : Args) (ps : Params) : Params :=
  match a.is_remote with
  | some b => setKey ps "is_remote" (PVal.bool b)
  | none => ps

/-- Optional filter: if easy_apply is not None then
params["easy_apply"] = easy_apply. -/
def applyEasyApply (a : Args) (ps : Params) : Params :=
  match a.easy_apply with
  | some b => setKey ps "easy_apply" (PVal.bool b)
  | none => ps

/-- The three optional filters applied in source order. -/
def withOptionalFilters (a : Args) (ps : Params) : Params :=
  applyEasyApply a (applyIsRemote a (applyJobType a ps))

/-- Parameter assembly of the toolkit method (no kwargs passthrough). -/
def assembleParamsTool (a : Args) : Params :=
  withOptionalFilters a (baseParams a)

/-- Parameter assembly of the plain function: the same dictionary, then
params.update(kwargs) merging the extra keyword overrides last. -/
def assembleParams (a : Args) (kwargs : Params) : Params :=
  dictUpdate (withOptionalFilters a (baseParams a)) kwargs

/-- The metadata entry of the populated branch, as built by both sources:
unique_companies from the company column when present (else None), and
top_locations from value_counts of the city column, head(10), as a
dictionary (else an empty dictionary). -/
def metadataEntries (df : DataFrame) : List (String × JVal) :=
  [("unique_companies",
      if "company" ∈ df.columns then JVal.nat (nunique (df.col "company")) else JVal.null),
   ("top_locations",
      JVal.obj
        (if "city" ∈ df.columns then
          ((value_counts (df.col "city")).take 10).map (fun p => (p.1, JVal.nat p.2))
        else []))]

def metadataObj (df : DataFrame) : JVal :=
  JVal.obj (metadataEntries df)

/-- src/jobspy_demo.py jobspy_scraper: assemble parameters, call the
external scrape (the oracle), and shape the result; any exception from
the external call is caught and turned into the error dictionary. -/
def jobspy_scraper (a : Args) (kwargs : Params)
    (scrape : Params → Except String DataFrame) : Result :=
  match scrape (assembleParams a kwargs) with
  | Except.error e =>
      [("success", JVal.bool false),
       ("error", JVal.str e)]
  | Except.ok df =>
      if df.isEmpty then
        [("success", JVal.bool true),
         ("count", JVal.nat 0),
         ("data", JVal.list []),
         ("message", JVal.str "No jobs found. Try adjusting your filters.")]
      else
        [("success", JVal.bool true),
         ("count", JVal.nat df.len),
         ("data", JVal.list df.toRecords),
         ("metadata", metadataObj df)]

/-- src/jobspy_tool.py JobSpyScraperTool.scrape_job_listings: identical
flow without the kwargs passthrough; the logging calls do not affect the
returned value. -/
def scrape_job_listings (a : Args)
    (scrape : Params → Except String DataFrame) : Result :=
  match scrape (assembleParamsTool a) with
  | Except.error e =>
      [("success", JVal.bool false),
       ("error", JVal.str e)]
  | Except.ok df =>
      if df.isEmpty then
        [("success", JVal.bool true),
         ("count", JVal.nat 0),
         ("data", JVal.list []),
         ("message", JVal.str "No jobs found. Try adjusting your filters.")]
      else
        [("success", JVal.bool true),
         ("count", JVal.nat df.len),
         ("data", JVal.list df.toRecords),
         ("metadata", metadataObj df)]

/-! Association-list lemmas for the Python dict model. -/

theorem lookup_append (k : String) (l1 l2 : Params) :
    (l1 ++ l2).lookup k = ((l1.lookup k).or (l2.lookup k)) := by
  induction l1 with
  | nil => rfl
  | cons p l1 ih =>
    rcases p with ⟨k1, v1⟩
    cases hbeq : (k == k1) with
    | true => simp [List.lookup, hbeq]
    | false => simp [List.lookup, hbeq, ih]

theorem lookup_eq_none_of_keys (ps : Params) (k : String)
    (h : ∀ p ∈ ps, p.1 ≠ k) : ps.lookup k = none := by
  induction ps with
  | nil => rfl
  | cons p ps ih =>
    rcases p with ⟨k1, v1⟩
    have hk : k1 ≠ k := h (k1, v1) (List.mem_cons_self _ _)
    have hbeq : (k == k1) = false := beq_eq_false_iff_ne.mpr (Ne.symm hk)
    simp only [List.lookup, hbeq]
    exact ih (fun q hq => h q (List.mem_cons_of_mem _ hq))

theorem lookup_map_replace (ps : Params) (k : String) (v : PVal) :
    (ps.map (fun p => if p.1 = k then (k, v) else p)).lookup k =
      if ps.any (fun p => p.1 = k) then some v else none := by
  induction ps with
  | nil => rfl
  | cons p ps ih =>
    rcases p with ⟨k1, v1⟩
    by_cases h : k1 = k
    · subst h
      have hmap : ((k1, v1) :: ps).map (fun p => if p.1 = k1 then (k1, v) else p)
          = (k1, v) :: ps.map (fun p => if p.1 = k1 then (k1, v) else p) := by
        simp
      rw [hmap]
      simp [List.lookup]
    · have hbeq : (k == k1) = false := beq_eq_false_iff_ne.mpr (Ne.symm h)
      have hmap : ((k1, v1) :: ps).map (fun p => if p.1 = k then (k, v) else p)
          = (k1, v1) :: ps.map (fun p => if p.1 = k then (k, v) else p) := by
        simp [h]
      rw [hmap]
      have hdec : decide (k1 = k) = false := decide_eq_false h
      simp only [List.lookup, hbeq, ih, List.any_cons, hdec, Bool.false_or]

theorem lookup_map_replace_ne (ps : Params) (k2 : String) (v : PVal)
    (k : String) (h : k ≠ k2) :
    (ps.map (fun p => if p.1 = k2 then (k2, v) else p)).lookup k = ps.lookup k := by
  induction ps with
  | nil => rfl
  | cons p ps ih =>
    rcases p with ⟨k1, v1⟩
    by_cases h1 : k1 = k2
    · subst h1
      have hbeq : (k == k1) = false := beq_eq_false_iff_ne.mpr h
      have hmap : ((k1, v1) :: ps).map (fun p => if p.1 = k1 then (k1, v) else p)
          = (k1, v) :: ps.map (fun p => if p.1 = k1 then (k1, v) else p) := by
        simp
      rw [hmap]
      simp [List.lookup, hbeq, ih]
    · have hmap : ((k1, v1) :: ps).map (fun p => if p.1 = k2 then (k2, v) else p)
          = (k1, v1) :: ps.map (fun p => if p.1 = k2 then (k2, v) else p) := by
        simp [h1]
      rw [hmap]
      cases hbeq : (k == k1) with
      | true => simp [List.lookup, hbeq]
      | false => simp [List.lookup, hbeq, ih]

theorem lookup_setKey_self (ps : Params) (k : String) (v : PVal) :
    (setKey ps k v).lookup k = some v := by
  unfold setKey
  by_cases h : ps.any (fun p => p.1 = k)
  · rw [if_pos h, lookup_map_replace, if_pos h]
  · rw [if_neg h, lookup_append]
    have hnone : ps.lookup k = none := by
      apply lookup_eq_none_of_keys
      intro p hp
      have := List.any_eq_false.mp (Bool.eq_false_iff.mpr h) p hp
      simpa using this
    simp [hnone, List.lookup]

theorem lookup_setKey_ne (ps : Params) (k2 : String) (v : PVal)
    (k : String) (h : k ≠ k2) :
    (setKey ps k2 v).lookup k = ps.lookup k := by
  unfold setKey
  by_cases hany : ps.any (fun p => p.1 = k2)
  · rw [if_pos hany, lookup_map_replace_ne ps k2 v k h]
  · rw [if_neg hany, lookup_append]
    have hbeq : (k == k2) = false := beq_eq_false_iff_ne.mpr h
    simp [List.lookup, hbeq]

theorem lookup_dictUpdate_notin (kw : Params) (ps : Params) (k : String)
    (h : k ∉ kw.map Prod.fst) :
    (dictUpdate ps kw).lookup k = ps.lookup k := by
  induction kw generalizing ps with
  | nil => rfl
  | cons p kw ih =>
    rcases p with ⟨k1, v1⟩
    have hk : k ≠ k1 := by
      intro hkk
      exact h (by simp [hkk])
    have htl : k ∉ kw.map Prod.fst := by
      intro hm
      exact h (by simp [hm])
    show (dictUpdate (setKey ps k1 v1) kw).lookup k = ps.lookup k
    rw [ih (setKey ps k1 v1) htl, lookup_setKey_ne ps k1 v1 k hk]

theorem lookup_dictUpdate_mem (kw : Params) (ps : Params) (k : String) (v : PVal)
    (hnd : (kw.map Prod.fst).Nodup) (hmem : (k, v) ∈ kw) :
    (dictUpdate ps kw).lookup k = some v := by
  induction kw generalizing ps with
  | nil => cases hmem
  | cons p kw ih =>
    rcases p with ⟨k1, v1⟩
    have hnd1 : (k1 :: kw.map Prod.fst).Nodup := hnd
    rcases List.mem_cons.mp hmem with heq | htl
    · have hk : k = k1 := congrArg Prod.fst heq
      have hv : v = v1 := congrArg Prod.snd heq
      subst hk
      subst hv
      have hnotin : k ∉ kw.map Prod.fst := (List.nodup_cons.mp hnd1).1
      show (dictUpdate (setKey ps k v) kw).lookup k = some v
      rw [lookup_dictUpdate_notin kw (setKey ps k v) k hnotin]
      exact lookup_setKey_self ps k v
    · show (dictUpdate (setKey ps k1 v1) kw).lookup k = some v
      exact ih (setKey ps k1 v1) (List.nodup_cons.mp hnd1).2 htl

/-! Branch lemmas for the two call surfaces. -/

theorem isEmpty_true_of_nil {df : DataFrame} (h : df.rows = []) :
    df.isEmpty = true := by
  unfold DataFrame.isEmpty
  rw [h]
  rfl

theorem isEmpty_false_of_ne {df : DataFrame} (h : df.rows ≠ []) :
    df.isEmpty = false := by
  unfold DataFrame.isEmpty
  cases hr : df.rows with
  | nil => exact absurd hr h
  | cons x xs => rfl

theorem demo_error_branch (a : Args) (kwargs : Params)
    (scrape : Params → Except String DataFrame) (e : String)
    (h : scrape (assembleParams a kwargs) = Except.error e) :
    jobspy_scraper a kwargs scrape =
      [("success", JVal.bool false), ("error", JVal.str e)] := by
  unfold jobspy_scraper
  rw [h]

theorem demo_empty_branch (a : Args) (kwargs : Params)
    (scrape : Params → Except String DataFrame) (df : DataFrame)
    (h : scrape (assembleParams a kwargs) = Except.ok df) (he : df.rows = []) :
    jobspy_scraper a kwargs scrape =
      [("success", JVal.bool true),
       ("count", JVal.nat 0),
       ("data", JVal.list []),
       ("message", JVal.str "No jobs found. Try adjusting your filters.")] := by
  unfold jobspy_scraper
  rw [h]
  simp [isEmpty_true_of_nil he]

theorem demo_populated_branch (a : Args) (kwargs : Params)
    (scrape : Params → Except String DataFrame) (df : DataFrame)
    (h : scrape (assembleParams a kwargs) = Except.ok df) (hne : df.rows ≠ []) :
    jobspy_scraper a kwargs scrape =
      [("success", JVal.bool true),
       ("count", JVal.nat df.len),
       ("data", JVal.list df.toRecords),
       ("metadata", metadataObj df)] := by
  unfold jobspy_scraper
  rw [h]
  simp [isEmpty_false_of_ne hne]

theorem tool_error_branch (a : Args)
    (scrape : Params → Except String DataFrame) (e : String)
    (h : scrape (assembleParamsTool a) = Except.error e) :
    scrape_job_listings a scrape =
      [("success", JVal.bool false), ("error", JVal.str e)] := by
  unfold scrape_job_listings
  rw [h]

theorem tool_empty_branch (a : Args)
    (scrape : Params → Except String DataFrame) (df : DataFrame)
    (h : scrape (assembleParamsTool a) = Except.ok df) (he : df.rows = []) :
    scrape_job_listings a scrape =
      [("success", JVal.bool true),
       ("count", JVal.nat 0),
       ("data", JVal.list []),
       ("message", JVal.str "No jobs found. Try adjusting your filters.")] := by
  unfold scrape_job_listings
  rw [h]
  simp [isEmpty_true_of_nil he]

theorem tool_populated_branch (a : Args)
    (scrape : Params → Except String DataFrame) (df : DataFrame)
    (h : scrape (assembleParamsTool a) = Except.ok df) (hne : df.rows ≠ []) :
    scrape_job_listings a scrape =
      [("success", JVal.bool true),
       ("count", JVal.nat df.len),
       ("data", JVal.list df.toRecords),
       ("metadata", metadataObj df)] := by
  unfold scrape_job_listings
  rw [h]
  simp [isEmpty_false_of_ne hne]

theorem demo_has_success (a : Args) (kwargs : Params)
    (scrape : Params → Except String DataFrame) :
    ∃ b, (jobspy_scraper a kwargs scrape).lookup "success" = some (JVal.bool b) := by
  cases hs : scrape (assembleParams a kwargs) with
  | error e => exact ⟨false, by rw [demo_error_branch a kwargs scrape e hs]; rfl⟩
  | ok df =>
    by_cases he : df.rows = []
    · exact ⟨true, by rw [demo_empty_branch a kwargs scrape df hs he]; rfl⟩
    · exact ⟨true, by rw [demo_populated_branch a kwargs scrape df hs he]; rfl⟩

theorem tool_has_success (a : Args)
    (scrape : Params → Except String DataFrame) :
    ∃ b, (scrape_job_listings a scrape).lookup "success" = some (JVal.bool b) := by
  cases hs : scrape (assembleParamsTool a) with
  | error e => exact ⟨false, by rw [tool_error_branch a scrape e hs]; rfl⟩
  | ok df =>
    by_cases he : df.rows = []
    · exact ⟨true, by rw [tool_empty_branch a scrape df hs he]; rfl⟩
    · exact ⟨true, by rw [tool_populated_branch a scrape df hs he]; rfl⟩

/-! Concrete example oracles used by the witness theorems. -/

/-- An external scrape call that always raises (str of the exception). -/
def scrapeErrEx : Params → Except String DataFrame :=
  fun _ => Except.error "connection refused"

/-- An external scrape call returning a result set with zero rows. -/
def scrapeEmptyEx : Params → Except String DataFrame :=
  fun _ => Except.ok { columns := ["title", "company"], rows := [] }

/-- The result set of the spec scenario: 5 rows, company values
A, A, B, C, D, and no city column. -/
def dfEx : DataFrame :=
  { columns := ["title", "company"],
    rows := [[("title", "t1"), ("company", "A")],
             [("title", "t2"), ("company", "A")],
             [("title", "t3"), ("company", "B")],
             [("title", "t4"), ("company", "C")],
             [("title", "t5"), ("company", "D")]] }

/-- An external scrape call returning the 5-row example result set. -/
def scrapeOkEx : Params → Except String DataFrame :=
  fun _ => Except.ok dfEx

/-- Claim C1: for every input parameter set and every behavior of the
external scrape operation (any tabular result or any raised exception),
both call surfaces return a mapping containing a boolean success field;
the embedding is a total function, so no exception propagates. -/
theorem C1_success_field_always (a : Args) (kwargs : Params)
    (scrape : Params → Except String DataFrame) :
    (∃ b, (jobspy_scraper a kwargs scrape).lookup "success" = some (JVal.bool b)) ∧
    (∃ b, (scrape_job_listings a scrape).lookup "success" = some (JVal.bool b)) :=
  ⟨demo_has_success a kwargs scrape, tool_has_success a scrape⟩

/-- Claim C2: if the external scrape call raises e, the result has
success=false, error equal to the stringified reason, and no count or
data field, on both call surfaces. -/
theorem C2_error_branch_shape (a : Args) (kwargs : Params)
    (scrape : Params → Except String DataFrame) (e : String) :
    (scrape (assembleParams a kwargs) = Except.error e →
       (jobspy_scraper a kwargs scrape).lookup "success" = some (JVal.bool false) ∧
       (jobspy_scraper a kwargs scrape).lookup "error" = some (JVal.str e) ∧
       (jobspy_scraper a kwargs scrape).lookup "count" = none ∧
       (jobspy_scraper a kwargs scrape).lookup "data" = none) ∧
    (scrape (assembleParamsTool a) = Except.error e →
       (scrape_job_listings a scrape).lookup "success" = some (JVal.bool false) ∧
       (scrape_job_listings a scrape).lookup "error" = some (JVal.str e) ∧
       (scrape_job_listings a scrape).lookup "count" = none ∧
       (scrape_job_listings a scrape).lookup "data" = none) := by
  constructor
  · intro h
    rw [demo_error_branch a kwargs scrape e h]
    exact ⟨rfl, rfl, rfl, rfl⟩
  · intro h
    rw [tool_error_branch a scrape e h]
    exact ⟨rfl, rfl, rfl, rfl⟩

/-- Witness for C2 at concrete inputs: the always-raising oracle. -/
theorem C2_error_branch_shape_witness :
    ((jobspy_scraper {} [] scrapeErrEx).lookup "success" = some (JVal.bool false) ∧
     (jobspy_scraper {} [] scrapeErrEx).lookup "error" = some (JVal.str "connection refused") ∧
     (jobspy_scraper {} [] scrapeErrEx).lookup "count" = none ∧
     (jobspy_scraper {} [] scrapeErrEx).lookup "data" = none) ∧
    ((scrape_job_listings {} scrapeErrEx).lookup "success" = some (JVal.bool false) ∧
     (scrape_job_listings {} scrapeErrEx).lookup "error" = some (JVal.str "connection refused") ∧
     (scrape_job_listings {} scrapeErrEx).lookup "count" = none ∧
     (scrape_job_listings {} scrapeErrEx).lookup "data" = none) :=
  ⟨(C2_error_branch_shape {} [] scrapeErrEx "connection refused").1 rfl,
   (C2_error_branch_shape {} [] scrapeErrEx "connection refused").2 rfl⟩

/-- Claim C3: if the external call succeeds with zero rows, the result is
success=true, count=0, data=[], the fixed message, and no metadata field,
on both call surfaces. -/
theorem C3_empty_branch_shape (a : Args) (kwargs : Params)
    (scrape : Params → Except String DataFrame) (df : DataFrame) :
    (scrape (assembleParams a kwargs) = Except.ok df → df.rows = [] →
       (jobspy_scraper a kwargs scrape).lookup "success" = some (JVal.bool true) ∧
       (jobspy_scraper a kwargs scrape).lookup "count" = some (JVal.nat 0) ∧
       (jobspy_scraper a kwargs scrape).lookup "data" = some (JVal.list []) ∧
       (jobspy_scraper a kwargs scrape).lookup "message" =
         some (JVal.str "No jobs found. Try adjusting your filters.") ∧
       (jobspy_scraper a kwargs scrape).lookup "metadata" = none) ∧
    (scrape (assembleParamsTool a) = Except.ok df → df.rows = [] →
       (scrape_job_listings a scrape).lookup "success" = some (JVal.bool true) ∧
       (scrape_job_listings a scrape).lookup "count" = some (JVal.nat 0) ∧
       (scrape_job_listings a scrape).lookup "data" = some (JVal.list []) ∧
       (scrape_job_listings a scrape).lookup "message" =
         some (JVal.str "No jobs found. Try adjusting your filters.") ∧
       (scrape_job_listings a scrape).lookup "metadata" = none) := by
  constructor
  · intro h he
    rw [demo_empty_branch a kwargs scrape df h he]
    exact ⟨rfl, rfl, rfl, rfl, rfl⟩
  · intro h he
    rw [tool_empty_branch a scrape df h he]
    exact ⟨rfl, rfl, rfl, rfl, rfl⟩

/-- Witness for C3 at concrete inputs: the zero-row oracle. -/
theorem C3_empty_branch_shape_witness :
    ((jobspy_scraper {} [] scrapeEmptyEx).lookup "success" = some (JVal.bool true) ∧
     (jobspy_scraper {} [] scrapeEmptyEx).lookup "count" = some (JVal.nat 0) ∧
     (jobspy_scraper {} [] scrapeEmptyEx).lookup "data" = some (JVal.list []) ∧
     (jobspy_scraper {} [] scrapeEmptyEx).lookup "message" =
       some (JVal.str "No jobs found. Try adjusting your filters.") ∧
     (jobspy_scraper {} [] scrapeEmptyEx).lookup "metadata" = none) ∧
    ((scrape_job_listings {} scrapeEmptyEx).lookup "success" = some (JVal.bool true) ∧
     (scrape_job_listings {} scrapeEmptyEx).lookup "count" = some (JVal.nat 0) ∧
     (scrape_job_listings {} scrapeEmptyEx).lookup "data" = some (JVal.list []) ∧
     (scrape_job_listings {} scrapeEmptyEx).lookup "message" =
       some (JVal.str "No jobs found. Try adjusting your filters.") ∧
     (scrape_job_listings {} scrapeEmptyEx).lookup "metadata" = none) :=
  ⟨(C3_empty_branch_shape {} [] scrapeEmptyEx
      { columns := ["title", "company"], rows := [] }).1 rfl rfl,
   (C3_empty_branch_shape {} [] scrapeEmptyEx
      { columns := ["title", "company"], rows := [] }).2 rfl rfl⟩

/-- Claim C4: if the external call succeeds with N>0 rows, the result has
success=true, count=N, and data is a sequence of exactly N per-record
mappings, one per row, in the order of the rows, on both call surfaces. -/
theorem C4_populated_count_data (a : Args) (kwargs : Params)
    (scrape : Params → Except String DataFrame) (df : DataFrame) (n : Nat) :
    (scrape (assembleParams a kwargs) = Except.ok df → df.rows.length = n → 0 < n →
       (jobspy_scraper a kwargs scrape).lookup "success" = some (JVal.bool true) ∧
       (jobspy_scraper a kwargs scrape).lookup "count" = some (JVal.nat n) ∧
       ∃ ds, (jobspy_scraper a kwargs scrape).lookup "data" = some (JVal.list ds) ∧
         ds.length = n ∧
         ∀ i : Nat, ds[i]? = (df.rows[i]?).map
           (fun r => JVal.obj (df.columns.map (fun c => (c, JVal.str (cellAt r c)))))) ∧
    (scrape (assembleParamsTool a) = Except.ok df → df.rows.length = n → 0 < n →
       (scrape_job_listings a scrape).lookup "success" = some (JVal.bool true) ∧
       (scrape_job_listings a scrape).lookup "count" = some (JVal.nat n) ∧
       ∃ ds, (scrape_job_listings a scrape).lookup "data" = some (JVal.list ds) ∧
         ds.length = n ∧
         ∀ i : Nat, ds[i]? = (df.rows[i]?).map
           (fun r => JVal.obj (df.columns.map (fun c => (c, JVal.str (cellAt r c)))))) := by
  have hrec : ∀ i : Nat, (df.toRecords)[i]? = (df.rows[i]?).map
      (fun r => JVal.obj (df.columns.map (fun c => (c, JVal.str (cellAt r c))))) := by
    intro i
    unfold DataFrame.toRecords
    exact List.getElem?_map _ df.rows i
  constructor
  · intro h hn hpos
    have hne : df.rows ≠ [] := by
      intro hnil
      rw [hnil] at hn
      simp at hn
      omega
    rw [demo_populated_branch a kwargs scrape df h hne]
    refine ⟨rfl, ?_, df.toRecords, rfl, ?_, hrec⟩
    · show some (JVal.nat df.len) = some (JVal.nat n)
      rw [DataFrame.len, hn]
    · unfold DataFrame.toRecords
      rw [List.length_map, hn]
  · intro h hn hpos
    have hne : df.rows ≠ [] := by
      intro hnil
      rw [hnil] at hn
      simp at hn
      omega
    rw [tool_populated_branch a scrape df h hne]
    refine ⟨rfl, ?_, df.toRecords, rfl, ?_, hrec⟩
    · show some (JVal.nat df.len) = some (JVal.nat n)
      rw [DataFrame.len, hn]
    · unfold DataFrame.toRecords
      rw [List.length_map, hn]

/-- Witness for C4 at concrete inputs: the 5-row example oracle. -/
theorem C4_populated_count_data_witness :
    ((jobspy_scraper {} [] scrapeOkEx).lookup "success" = some (JVal.bool true) ∧
     (jobspy_scraper {} [] scrapeOkEx).lookup "count" = some (JVal.nat 5) ∧
     ∃ ds, (jobspy_scraper {} [] scrapeOkEx).lookup "data" = some (JVal.list ds) ∧
       ds.length = 5 ∧
       ∀ i : Nat, ds[i]? = (dfEx.rows[i]?).map
         (fun r => JVal.obj (dfEx.columns.map (fun c => (c, JVal.str (cellAt r c)))))) ∧
    ((scrape_job_listings {} scrapeOkEx).lookup "success" = some (JVal.bool true) ∧
     (scrape_job_listings {} scrapeOkEx).lookup "count" = some (JVal.nat 5) ∧
     ∃ ds, (scrape_job_listings {} scrapeOkEx).lookup "data" = some (JVal.list ds) ∧
       ds.length = 5 ∧
       ∀ i : Nat, ds[i]? = (dfEx.rows[i]?).map
         (fun r => JVal.obj (dfEx.columns.map (fun c => (c, JVal.str (cellAt r c)))))) :=
  ⟨(C4_populated_count_data {} [] scrapeOkEx dfEx 5).1 rfl rfl (by decide),
   (C4_populated_count_data {} [] scrapeOkEx dfEx 5).2 rfl rfl (by decide)⟩

/-! Lemmas on the optional-filter and override steps of parameter
assembly, and the claims C6, C7, C8, C9 about the forwarded parameters. -/

theorem lookup_applyJobType_ne (a : Args) (ps : Params) (k : String)
    (h : k ≠ "job_type") : (applyJobType a ps).lookup k = ps.lookup k := by
  unfold applyJobType
  by_cases hjt : a.job_type ≠ ""
  · rw [if_pos hjt, lookup_setKey_ne ps "job_type" _ k h]
  · rw [if_neg hjt]

theorem lookup_applyIsRemote_ne (a : Args) (ps : Params) (k : String)
    (h : k ≠ "is_remote") : (applyIsRemote a ps).lookup k = ps.lookup k := by
  unfold applyIsRemote
  cases a.is_remote with
  | some b => rw [lookup_setKey_ne ps "is_remote" _ k h]
  | none => rfl

theorem lookup_applyEasyApply_ne (a : Args) (ps : Params) (k : String)
    (h : k ≠ "easy_apply") : (applyEasyApply a ps).lookup k = ps.lookup k := by
  unfold applyEasyApply
  cases a.easy_apply with
  | some b => rw [lookup_setKey_ne ps "easy_apply" _ k h]
  | none => rfl

theorem lookup_applyJobType_self (a : Args) (ps : Params) :
    (applyJobType a ps).lookup "job_type" =
      if a.job_type = "" then ps.lookup "job_type"
      else some (PVal.str a.job_type) := by
  unfold applyJobType
  by_cases hjt : a.job_type = ""
  · rw [if_pos hjt]
    have : ¬(a.job_type ≠ "") := fun hc => hc hjt
    rw [if_neg this]
  · rw [if_neg hjt, if_pos (fun hc => hjt hc)]
    exact lookup_setKey_self ps "job_type" _

theorem lookup_applyIsRemote_self (a : Args) (ps : Params) :
    (applyIsRemote a ps).lookup "is_remote" =
      match a.is_remote with
      | some b => some (PVal.bool b)
      | none => ps.lookup "is_remote" := by
  unfold applyIsRemote
  cases a.is_remote with
  | some b => exact lookup_setKey_self ps "is_remote" _
  | none => rfl

theorem lookup_applyEasyApply_self (a : Args) (ps : Params) :
    (applyEasyApply a ps).lookup "easy_apply" =
      match a.easy_apply with
      | some b => some (PVal.bool b)
      | none => ps.lookup "easy_apply" := by
  unfold applyEasyApply
  cases a.easy_apply with
  | some b => exact lookup_setKey_self ps "easy_apply" _
  | none => rfl

theorem lookup_base_job_type (a : Args) :
    (baseParams a).lookup "job_type" = none := rfl

theorem lookup_base_is_remote (a : Args) :
    (baseParams a).lookup "is_remote" = none := rfl

theorem lookup_base_easy_apply (a : Args) :
    (baseParams a).lookup "easy_apply" = none := rfl

theorem lookup_tool_is_remote (a : Args) :
    (assembleParamsTool a).lookup "is_remote" = a.is_remote.map PVal.bool := by
  unfold assembleParamsTool withOptionalFilters
  rw [lookup_applyEasyApply_ne a _ _ (by decide),
    lookup_applyIsRemote_self a _]
  cases a.is_remote with
  | some b => rfl
  | none =>
    rw [lookup_applyJobType_ne a _ _ (by decide), lookup_base_is_remote a]
    rfl

theorem lookup_tool_easy_apply (a : Args) :
    (assembleParamsTool a).lookup "easy_apply" = a.easy_apply.map PVal.bool := by
  unfold assembleParamsTool withOptionalFilters
  rw [lookup_applyEasyApply_self a _]
  cases a.easy_apply with
  | some b => rfl
  | none =>
    rw [lookup_applyIsRemote_ne a _ _ (by decide),
      lookup_applyJobType_ne a _ _ (by decide), lookup_base_easy_apply a]
    rfl

theorem lookup_tool_job_type (a : Args) :
    (assembleParamsTool a).lookup "job_type" =
      if a.job_type = "" then none else some (PVal.str a.job_type) := by
  unfold assembleParamsTool withOptionalFilters
  rw [lookup_applyEasyApply_ne a _ _ (by decide),
    lookup_applyIsRemote_ne a _ _ (by decide),
    lookup_applyJobType_self a _, lookup_base_job_type a]

/-- Claim C6: is_remote and easy_apply appear in the forwarded parameter
set exactly when the caller explicitly supplied a value (the tri-state
unset sentinel is Option none); an explicit false is forwarded as false.
The kwargs hypotheses reflect that Python binds these declared keyword
names to the named parameters, never into kwargs. -/
theorem C6_tristate_filters_forwarding (a : Args) (kwargs : Params)
    (hir : "is_remote" ∉ kwargs.map Prod.fst)
    (hea : "easy_apply" ∉ kwargs.map Prod.fst) :
    (assembleParams a kwargs).lookup "is_remote" = a.is_remote.map PVal.bool ∧
    (assembleParams a kwargs).lookup "easy_apply" = a.easy_apply.map PVal.bool ∧
    (assembleParamsTool a).lookup "is_remote" = a.is_remote.map PVal.bool ∧
    (assembleParamsTool a).lookup "easy_apply" = a.easy_apply.map PVal.bool := by
  refine ⟨?_, ?_, lookup_tool_is_remote a, lookup_tool_easy_apply a⟩
  · show (dictUpdate (withOptionalFilters a (baseParams a)) kwargs).lookup "is_remote" = _
    rw [lookup_dictUpdate_notin kwargs _ _ hir]
    exact lookup_tool_is_remote a
  · show (dictUpdate (withOptionalFilters a (baseParams a)) kwargs).lookup "easy_apply" = _
    rw [lookup_dictUpdate_notin kwargs _ _ hea]
    exact lookup_tool_easy_apply a

/-- Witness for C6: is_remote explicitly false is forwarded as false,
easy_apply left unset is absent. -/
theorem C6_tristate_filters_forwarding_witness :
    (assembleParams { is_remote := some false } []).lookup "is_remote" =
      some (PVal.bool false) ∧
    (assembleParams { is_remote := some false } []).lookup "easy_apply" = none ∧
    (assembleParamsTool { is_remote := some false }).lookup "is_remote" =
      some (PVal.bool false) ∧
    (assembleParamsTool { is_remote := some false }).lookup "easy_apply" = none :=
  C6_tristate_filters_forwarding { is_remote := some false } []
    (by simp) (by simp)

/-- Claim C7: job_type appears in the forwarded parameter set exactly when
the caller supplied a non-empty value; an empty string is omitted. -/
theorem C7_job_type_forwarding (a : Args) (kwargs : Params)
    (hjt : "job_type" ∉ kwargs.map Prod.fst) :
    (assembleParams a kwargs).lookup "job_type" =
      (if a.job_type = "" then none else some (PVal.str a.job_type)) ∧
    (assembleParamsTool a).lookup "job_type" =
      (if a.job_type = "" then none else some (PVal.str a.job_type)) := by
  refine ⟨?_, lookup_tool_job_type a⟩
  show (dictUpdate (withOptionalFilters a (baseParams a)) kwargs).lookup "job_type" = _
  rw [lookup_dictUpdate_notin kwargs _ _ hjt]
  exact lookup_tool_job_type a

/-- Witness for C7: a caller-supplied empty job_type is omitted entirely,
and a non-empty one is forwarded. -/
theorem C7_job_type_forwarding_witness :
    ((assembleParams { job_type := "" } []).lookup "job_type" = none ∧
     (assembleParamsTool { job_type := "" }).lookup "job_type" = none) ∧
    ((assembleParams { job_type := "fulltime" } []).lookup "job_type" =
       some (PVal.str "fulltime") ∧
     (assembleParamsTool { job_type := "fulltime" }).lookup "job_type" =
       some (PVal.str "fulltime")) :=
  ⟨C7_job_type_forwarding { job_type := "" } [] (by simp),
   C7_job_type_forwarding { job_type := "fulltime" } [] (by simp)⟩

/-- Claim C8: the keyword overrides of the plain surface are merged last:
a colliding key takes the override value, and every other key keeps the
computed value. The Nodup hypothesis reflects that Python kwargs is a
dict, so its keys are distinct. -/
theorem C8_kwargs_override_last (a : Args) (kwargs : Params)
    (hnd : (kwargs.map Prod.fst).Nodup) :
    (∀ k v, (k, v) ∈ kwargs → (assembleParams a kwargs).lookup k = some v) ∧
    (∀ k, k ∉ kwargs.map Prod.fst →
       (assembleParams a kwargs).lookup k =
         (withOptionalFilters a (baseParams a)).lookup k) := by
  constructor
  · intro k v hmem
    exact lookup_dictUpdate_mem kwargs _ k v hnd hmem
  · intro k hk
    exact lookup_dictUpdate_notin kwargs _ k hk

/-- Witness for C8: an override colliding with the computed
results_wanted key replaces it, and a fresh override key is appended,
while an untouched computed key keeps its value. -/
theorem C8_kwargs_override_last_witness :
    (assembleParams {} [("results_wanted", PVal.int 99),
        ("proxy", PVal.str "socks5")]).lookup "results_wanted" =
      some (PVal.int 99) ∧
    (assembleParams {} [("results_wanted", PVal.int 99),
        ("proxy", PVal.str "socks5")]).lookup "proxy" =
      some (PVal.str "socks5") ∧
    (assembleParams {} [("results_wanted", PVal.int 99),
        ("proxy", PVal.str "socks5")]).lookup "location" =
      some (PVal.str "San Francisco, CA") :=
  ⟨(C8_kwargs_override_last {} _ (by simp)).1 "results_wanted" (PVal.int 99)
     (by simp),
   (C8_kwargs_override_last {} _ (by simp)).1 "proxy" (PVal.str "socks5")
     (by simp),
   ((C8_kwargs_override_last {} _ (by simp)).2 "location" (by simp)).trans rfl⟩

/-- Claim C9: on the shared parameter space (no extra keyword overrides)
the plain function and the toolkit method return identical result
mappings for every behavior of the external scrape call. -/
theorem C9_surfaces_agree (a : Args)
    (scrape : Params → Except String DataFrame) :
    jobspy_scraper a [] scrape = scrape_job_listings a scrape := rfl

/-! Instrumented model for claim C10: the try block as an Except
computation, the except handler as a catch. The pure embedding cannot
itself raise during parameter assembly or logging, so oracles inject the
possible Python-level exception of those pre-scrape steps. -/

/-- The shaping of a successful scrape result (the two return
dictionaries inside the try block). -/
def shapeRows (df : DataFrame) : Result :=
  if df.isEmpty then
    [("success", JVal.bool true),
     ("count", JVal.nat 0),
     ("data", JVal.list []),
     ("message", JVal.str "No jobs found. Try adjusting your filters.")]
  else
    [("success", JVal.bool true),
     ("count", JVal.nat df.len),
     ("data", JVal.list df.toRecords),
     ("metadata", metadataObj df)]

/-- The except handler: except Exception as e:
return a dict with success False and error str(e). -/
def handleScrapeErrors (body : Except String Result) : Result :=
  match body with
  | Except.ok r => r
  | Except.error e => [("success", JVal.bool false), ("error", JVal.str e)]

/-- A pre-scrape step that may raise: the oracle names the exception, or
none when the step completes normally returning x. -/
def stepMay (ex : Option String) (x : α) : Except String α :=
  match ex with
  | some e => Except.error e
  | none => Except.ok x

/-- jobspy_scraper with the whole try-block body explicit: parameter
assembly (which may raise, injected by preEx), then the external scrape,
then shaping; the handler wraps the entire body. -/
def jobspy_scraper_instr (a : Args) (kwargs : Params) (preEx : Option String)
    (scrape : Params → Except String DataFrame) : Result :=
  handleScrapeErrors
    ((stepMay preEx (assembleParams a kwargs)).bind
      (fun ps => (scrape ps).bind (fun df => Except.ok (shapeRows df))))

/-- scrape_job_listings with the whole try-block body explicit: the
pre-scrape logging step (may raise, injected by logEx), parameter
assembly (may raise, injected by preEx), the external scrape, shaping;
the handler wraps the entire body. -/
def scrape_job_listings_instr (a : Args) (logEx preEx : Option String)
    (scrape : Params → Except String DataFrame) : Result :=
  handleScrapeErrors
    ((stepMay logEx ()).bind
      (fun _ => (stepMay preEx (assembleParamsTool a)).bind
        (fun ps => (scrape ps).bind (fun df => Except.ok (shapeRows df)))))

theorem demo_instr_agrees (a : Args) (kwargs : Params)
    (scrape : Params → Except String DataFrame) :
    jobspy_scraper_instr a kwargs none scrape = jobspy_scraper a kwargs scrape := by
  unfold jobspy_scraper_instr jobspy_scraper stepMay handleScrapeErrors shapeRows
  cases h : scrape (assembleParams a kwargs) with
  | error e => simp [Except.bind, h]
  | ok df => simp [Except.bind, h]

theorem tool_instr_agrees (a : Args)
    (scrape : Params → Except String DataFrame) :
    scrape_job_listings_instr a none none scrape = scrape_job_listings a scrape := by
  unfold scrape_job_listings_instr scrape_job_listings stepMay handleScrapeErrors shapeRows
  cases h : scrape (assembleParamsTool a) with
  | error e => simp [Except.bind, h]
  | ok df => simp [Except.bind, h]

/-- Claim C10: the exception handler encloses the whole call body. An
exception injected in a pre-scrape step (parameter assembly, or the
toolkit logging line) is still caught and turned into the error dict;
with no injected exception the instrumented model is the plain one. -/
theorem C10_handler_encloses_whole_body (a : Args) (kwargs : Params)
    (scrape : Params → Except String DataFrame) (e : String) :
    jobspy_scraper_instr a kwargs (some e) scrape =
      [("success", JVal.bool false), ("error", JVal.str e)] ∧
    (∀ preEx, scrape_job_listings_instr a (some e) preEx scrape =
      [("success", JVal.bool false), ("error", JVal.str e)]) ∧
    scrape_job_listings_instr a none (some e) scrape =
      [("success", JVal.bool false), ("error", JVal.str e)] ∧
    jobspy_scraper_instr a kwargs none scrape = jobspy_scraper a kwargs scrape ∧
    scrape_job_listings_instr a none none scrape = scrape_job_listings a scrape :=
  ⟨rfl, fun _ => rfl, rfl, demo_instr_agrees a kwargs scrape,
   tool_instr_agrees a scrape⟩

/-! Lemmas on value_counts, and claim C5 about the summary metadata. -/

theorem value_counts_perm (l : List String) :
    List.Perm (value_counts l) (l.dedup.map (fun v => (v, l.count v))) :=
  List.perm_insertionSort descCount _

theorem value_counts_sorted (l : List String) :
    List.Pairwise descCount (value_counts l) :=
  List.sorted_insertionSort descCount _

theorem mem_value_counts (l : List String) (p : String × Nat)
    (h : p ∈ value_counts l) : p.1 ∈ l.dedup ∧ p.2 = l.count p.1 := by
  have hm := (value_counts_perm l).mem_iff.mp h
  rcases List.mem_map.mp hm with ⟨v, hv, he⟩
  cases he
  exact ⟨hv, rfl⟩

theorem value_counts_keys (l : List String) :
    List.Perm ((value_counts l).map Prod.fst) l.dedup := by
  have h := (value_counts_perm l).map Prod.fst
  rw [List.map_map] at h
  have hid : (Prod.fst ∘ fun v => (v, l.count v)) = id := rfl
  rw [hid, List.map_id] at h
  exact h

theorem value_counts_keys_nodup (l : List String) :
    ((value_counts l).map Prod.fst).Nodup :=
  (value_counts_keys l).nodup_iff.mpr l.nodup_dedup

theorem value_counts_length (l : List String) :
    (value_counts l).length = l.dedup.length := by
  have h := (value_counts_perm l).length_eq
  rw [List.length_map] at h
  exact h

theorem mem_value_counts_of_mem (l : List String) (c : String)
    (hc : c ∈ l.dedup) : (c, l.count c) ∈ value_counts l :=
  (value_counts_perm l).mem_iff.mpr (List.mem_map.mpr ⟨c, hc, rfl⟩)

theorem take_value_counts_most_frequent (l : List String) (c : String)
    (hc : c ∈ l.dedup) (hnot : c ∉ ((value_counts l).take 10).map Prod.fst) :
    ∀ p ∈ (value_counts l).take 10, l.count c ≤ p.2 := by
  intro p hp
  have hmem : (c, l.count c) ∈ value_counts l := mem_value_counts_of_mem l c hc
  have hsplit : (value_counts l).take 10 ++ (value_counts l).drop 10 =
      value_counts l := List.take_append_drop 10 (value_counts l)
  have hpw : List.Pairwise descCount
      ((value_counts l).take 10 ++ (value_counts l).drop 10) := by
    rw [hsplit]
    exact value_counts_sorted l
  have hcross := (List.pairwise_append.mp hpw).2.2
  have hmem2 : (c, l.count c) ∈
      (value_counts l).take 10 ++ (value_counts l).drop 10 := by
    rw [hsplit]
    exact hmem
  rcases List.mem_append.mp hmem2 with hin | hin
  · exact absurd (List.mem_map.mpr ⟨(c, l.count c), hin, rfl⟩) hnot
  · exact hcross p hp (c, l.count c) hin

theorem metadataEntries_unique_companies (df : DataFrame) :
    (metadataEntries df).lookup "unique_companies" =
      some (if "company" ∈ df.columns then JVal.nat (nunique (df.col "company"))
            else JVal.null) := rfl

theorem metadataEntries_top_locations (df : DataFrame) :
    (metadataEntries df).lookup "top_locations" =
      some (JVal.obj
        (if "city" ∈ df.columns then
          ((value_counts (df.col "city")).take 10).map (fun p => (p.1, JVal.nat p.2))
        else [])) := rfl

/-- Claim C5: for a non-empty external result, the metadata of the result
has unique_companies equal to the distinct count of the company column
when it exists and null otherwise, and top_locations equal to the
city-to-count mapping restricted to the 10 most frequent cities when a
city column exists (entries are genuine counts, keys distinct, at most
10 and all cities when fewer, and every omitted city has a count at most
that of every kept one), and an empty mapping otherwise. -/
theorem C5_metadata_summary (a : Args) (kwargs : Params)
    (scrape : Params → Except String DataFrame) (df : DataFrame) :
    (scrape (assembleParams a kwargs) = Except.ok df → df.rows ≠ [] →
       (jobspy_scraper a kwargs scrape).lookup "metadata" =
         some (JVal.obj (metadataEntries df))) ∧
    (scrape (assembleParamsTool a) = Except.ok df → df.rows ≠ [] →
       (scrape_job_listings a scrape).lookup "metadata" =
         some (JVal.obj (metadataEntries df))) ∧
    ("company" ∈ df.columns →
       (metadataEntries df).lookup "unique_companies" =
         some (JVal.nat ((df.col "company").toFinset.card))) ∧
    ("company" ∉ df.columns →
       (metadataEntries df).lookup "unique_companies" = some JVal.null) ∧
    ("city" ∉ df.columns →
       (metadataEntries df).lookup "top_locations" = some (JVal.obj [])) ∧
    ("city" ∈ df.columns →
       ∃ tl : List (String × Nat),
         (metadataEntries df).lookup "top_locations" =
           some (JVal.obj (tl.map (fun p => (p.1, JVal.nat p.2)))) ∧
         (tl.map Prod.fst).Nodup ∧
         (∀ p ∈ tl, p.1 ∈ df.col "city" ∧ p.2 = (df.col "city").count p.1) ∧
         tl.length = min 10 ((df.col "city").toFinset.card) ∧
         (∀ c ∈ df.col "city", c ∉ tl.map Prod.fst →
            ∀ p ∈ tl, (df.col "city").count c ≤ p.2)) := by
  refine ⟨?_, ?_, ?_, ?_, ?_, ?_⟩
  · intro hs hne
    rw [demo_populated_branch a kwargs scrape df hs hne]
    rfl
  · intro hs hne
    rw [tool_populated_branch a scrape df hs hne]
    rfl
  · intro h
    rw [metadataEntries_unique_companies df, if_pos h, List.card_toFinset]
    rfl
  · intro h
    rw [metadataEntries_unique_companies df, if_neg h]
  · intro h
    rw [metadataEntries_top_locations df, if_neg h]
  · intro h
    refine ⟨(value_counts (df.col "city")).take 10, ?_, ?_, ?_, ?_, ?_⟩
    · rw [metadataEntries_top_locations df, if_pos h]
    · rw [List.map_take]
      exact (value_counts_keys_nodup _).sublist (List.take_sublist 10 _)
    · intro p hp
      have hp2 := List.take_subset 10 _ hp
      have hm := mem_value_counts _ p hp2
      exact ⟨List.mem_dedup.mp hm.1, hm.2⟩
    · rw [List.length_take, value_counts_length, List.card_toFinset]
    · intro c hc hnot p hp
      exact take_value_counts_most_frequent (df.col "city") c
        (List.mem_dedup.mpr hc) hnot p hp

/-- Witness for C5 (amended): the spec scenario, 5 rows with company
values A, A, B, C, D and no city column: unique_companies is the
distinct count 4, and top_locations is the empty mapping. -/
theorem C5_metadata_summary_witness :
    (jobspy_scraper {} [] scrapeOkEx).lookup "metadata" =
      some (JVal.obj (metadataEntries dfEx)) ∧
    (scrape_job_listings {} scrapeOkEx).lookup "metadata" =
      some (JVal.obj (metadataEntries dfEx)) ∧
    (metadataEntries dfEx).lookup "unique_companies" = some (JVal.nat 4) ∧
    (metadataEntries dfEx).lookup "top_locations" = some (JVal.obj []) :=
  ⟨(C5_metadata_summary {} [] scrapeOkEx dfEx).1 rfl (by decide),
   (C5_metadata_summary {} [] scrapeOkEx dfEx).2.1 rfl (by decide),
   by
     have h := (C5_metadata_summary {} [] scrapeOkEx dfEx).2.2.1 (by decide)
     have hc : (dfEx.col "company").toFinset.card = 4 := by decide
     rw [hc] at h
     exact h,
   (C5_metadata_summary {} [] scrapeOkEx dfEx).2.2.2.2.1 (by decide)⟩

/-- Counterexample to C5 as stated: its example asserts that 5 rows with
company values A, A, B, C, D (and no city column) yield
unique_companies=3; the code computes the distinct count, which is 4, so
the value 3 is wrong at that input. -/
theorem C5_example_counterexample :
    (metadataEntries dfEx).lookup "unique_companies" = some (JVal.nat 4) ∧
    ¬ (metadataEntries dfEx).lookup "unique_companies" = some (JVal.nat 3) := by
  have h4 : (metadataEntries dfEx).lookup "unique_companies" =
      some (JVal.nat 4) := rfl
  refine ⟨h4, ?_⟩
  intro h3
  rw [h4] at h3
  injection h3 with hj
  injection hj with hn
  exact absurd hn (by decide)
